import Mathlib

/-!
Shallow embedding of the model-registry / selection / transform-binding
subsystem of `src/main.js` (a Three.js scene editor).

Scene-graph nodes are identified by natural numbers.  The external scene
graph is passed where needed as a parent map `g : Nat → Option Nat`
(`g n = some p` means node `n` has parent `p`; `none` means no parent).
JavaScript's unbounded `while (current.parent …)` walks are rendered as
fuel-bounded recursion; every theorem about them holds for all fuel values.
JS object identity on registry entries is rendered as structural equality
of `Model` values (faithful whenever the registry holds no structurally
identical duplicates, which is how the program constructs it).
-/

/-- A registry entry: `{ object, name, id }` as pushed by `loadModel` /
the built-in setup.  `object` is the scene-graph node handle, `id` the
creation timestamp. -/
structure Model where
  object : Nat
  name : String
  id : Nat
deriving DecidableEq

/-- Gizmo (TransformControls) attach/detach events.  A `detach` records
the node the gizmo was attached to at that moment (`none` if it was not
attached). -/
inductive GizmoEvent where
  | detach (prev : Option Nat)
  | attach (node : Nat)
deriving DecidableEq

/-- State of `ModelManager` plus the scene's child list:
`models` is `this.models`, `selectedModel` is `this.selectedModel`,
`gizmoAttached` is the node `this.transformControls` is attached to,
`scene` is the list of nodes added to the scene root. -/
structure MMState where
  models : List Model
  selectedModel : Option Model
  gizmoAttached : Option Nat
  scene : List Nat
deriving DecidableEq

/-- `ModelManager.deselectModel`: if a model is selected, detach the
gizmo and clear the selection; otherwise do nothing. -/
def deselectModel (s : MMState) : MMState × List GizmoEvent :=
  match s.selectedModel with
  | some _ =>
      ({ s with selectedModel := none, gizmoAttached := none },
       [GizmoEvent.detach s.gizmoAttached])
  | none => (s, [])

/-- `ModelManager.selectModel(model)`: early-return when `model` is
already the selection (`===` comparison); otherwise deselect, set the
selection, and, when `model` is non-null, attach the gizmo to its node. -/
def selectModel (s : MMState) (model : Option Model) : MMState × List GizmoEvent :=
  if s.selectedModel = model then (s, [])
  else
    let r := deselectModel s
    let s2 := { r.1 with selectedModel := model }
    match model with
    | some m => ({ s2 with gizmoAttached := some m.object },
                 r.2 ++ [GizmoEvent.attach m.object])
    | none => (s2, r.2)

/-- `ModelManager.removeModel(model)`: deselect first when `model` is the
current selection, remove its node from the scene, and filter it out of
`this.models` (by identity). -/
def removeModel (s : MMState) (model : Model) : MMState × List GizmoEvent :=
  let r := if s.selectedModel = some model then deselectModel s else (s, [])
  ({ r.1 with
      scene := r.1.scene.filter (fun n => n != model.object),
      models := r.1.models.filter (fun m => m != model) }, r.2)

/-- The extension computed by `file.name.split('.').pop().toLowerCase()`:
the suffix of the file name after its last dot (the whole name when there
is no dot), lower-cased (ASCII case folding). -/
def getExtension (fileName : String) : String :=
  String.mk (((fileName.toList.reverse.takeWhile (fun c => c != '.')).reverse).map Char.toLower)

/-- The recognized extensions of `loadModel`'s `switch` (gltf/glb share
one case). -/
def supportedExts : List String := ["gltf", "glb", "obj", "stl"]

/-- Error taxonomy of `loadModel`: the `default:` throw, or a rejection
from the external loader. -/
inductive ImportError where
  | unsupportedFormat (ext : String)
  | parseError (msg : String)
deriving DecidableEq

/-- The supported-formats list as it appears in the thrown message. -/
def supportedFormatsText : String := "GLTF, GLB, OBJ, STL"

/-- Message carried by each `ImportError` (the unsupported-format string
is the template thrown in `loadModel`'s `default:` branch). -/
def errorMessage : ImportError → String
  | ImportError.unsupportedFormat ext =>
      "Неподдерживаемый формат файла: " ++ ext ++ ". Поддерживаемые форматы: " ++ supportedFormatsText
  | ImportError.parseError msg => msg

/-- Outcome of one `loadModel` call: resulting manager state, gizmo
events, the error (if any), and the `alert` text (if any). -/
structure LoadOutcome where
  state : MMState
  events : List GizmoEvent
  importError : Option ImportError
  alertMsg : Option String
deriving DecidableEq

/-- `ModelManager.loadModel(file)`.  The external parser's outcome is an
input (`parse`): `Except.ok node` abstracts the loader callback resolving
with a scene node (for STL, the mesh constructed around the geometry),
`Except.error msg` its rejection.  `now` is `Date.now()`.  On success the
entry `{ object, name: file.name, id: Date.now() }` is pushed, the node
added to the scene, and the entry selected; on any thrown error the state
is untouched and the message is surfaced via `alert`. -/
def loadModel (s : MMState) (fileName : String) (now : Nat)
    (parse : Except String Nat) : LoadOutcome :=
  let extension := getExtension fileName
  if supportedExts.contains extension then
    match parse with
    | Except.ok node =>
        let model : Model := { object := node, name := fileName, id := now }
        let s1 : MMState := { s with models := s.models ++ [model], scene := s.scene ++ [node] }
        let r := selectModel s1 (some model)
        { state := r.1, events := r.2, importError := none, alertMsg := none }
    | Except.error msg =>
        { state := s, events := [],
          importError := some (ImportError.parseError msg),
          alertMsg := some ("Ошибка загрузки модели: " ++ errorMessage (ImportError.parseError msg)) }
  else
    { state := s, events := [],
      importError := some (ImportError.unsupportedFormat extension),
      alertMsg := some ("Ошибка загрузки модели: " ++ errorMessage (ImportError.unsupportedFormat extension)) }

/-- The reserved names of the `removeModelBtn` click handler. -/
def builtInNames : List String := ["Пирамида", "Куб", "Сфера"]

/-- The `removeModelBtn` click handler.  `confirmAnswer` is the user's
answer to the `confirm` dialog (consulted only on the built-in branch).
Returns the new state, the gizmo events, and whether a confirmation
dialog was shown.  Note the source's `else` belongs to the *outer*
name-check `if`: on the built-in branch the inner `if (confirm(..)) return;`
is the whole body, so no removal happens there under either answer. -/
def removeModelBtnClick (s : MMState) (confirmAnswer : Bool) :
    MMState × List GizmoEvent × Bool :=
  match s.selectedModel with
  | none => (s, [], false)
  | some selectedModel =>
      if builtInNames.contains selectedModel.name then
        if confirmAnswer then (s, [], true) else (s, [], true)
      else
        let r := removeModel s selectedModel
        (r.1, r.2, false)

/-- `ModelManager.isDescendantOf(child, parent)`: walk `current = child`
upward through the parent map until `null`, returning true when `parent`
is met.  `fuel` bounds the walk (the JS loop is unbounded but terminates
on acyclic scene graphs). -/
def isDescendantOf (g : Nat → Option Nat) : Nat → Nat → Nat → Bool
  | 0, _, _ => false
  | fuel + 1, child, parent =>
      if child = parent then true
      else
        match g child with
        | none => false
        | some p => isDescendantOf g fuel p parent

/-- The middle phase of `findModelByMesh`: walk the hit node's parent
chain while the parent exists and is not the scene root, returning the
first registered model found at an ancestor. -/
def chainSearch (models : List Model) (g : Nat → Option Nat) (root : Nat) :
    Nat → Nat → Option Model
  | _, 0 => none
  | cur, fuel + 1 =>
      match g cur with
      | none => none
      | some p =>
          if p = root then none
          else
            match models.find? (fun model => model.object == p) with
            | some m => some m
            | none => chainSearch models g root p fuel

/-- `ModelManager.findModelByMesh(mesh)`: direct match, else parent-chain
walk up to (excluding) the scene root, else first model whose subtree
contains the hit node. -/
def findModelByMesh (models : List Model) (g : Nat → Option Nat)
    (root mesh fuel : Nat) : Option Model :=
  match models.find? (fun model => model.object == mesh) with
  | some directMatch => some directMatch
  | none =>
      match chainSearch models g root mesh fuel with
      | some m => some m
      | none => models.find? (fun model => isDescendantOf g fuel mesh model.object)

/-- `ModelManager.onMouseClick`, after the external ray cast: `hit` is
the first intersected node (or `none`); a hit is resolved through
`findModelByMesh` and selected, a miss deselects. -/
def onMouseClick (s : MMState) (g : Nat → Option Nat) (root fuel : Nat)
    (hit : Option Nat) : MMState × List GizmoEvent :=
  match hit with
  | some mesh => selectModel s (findModelByMesh s.models g root mesh fuel)
  | none => deselectModel s

/-- The chain of nodes visited by `while (current) { …; current = current.parent }`
starting at `x`, bounded by `fuel`: `x` followed by its ancestors. -/
def nodeChain (g : Nat → Option Nat) : Nat → Nat → List Nat
  | 0, _ => []
  | fuel + 1, x =>
      x :: (match g x with
            | none => []
            | some p => nodeChain g fuel p)

/-- The proper ancestors of `cur` up to but not including the scene
root, in inner-to-outer order, bounded by `fuel`. -/
def parentChainAux (g : Nat → Option Nat) (root : Nat) : Nat → Nat → List Nat
  | 0, _ => []
  | fuel + 1, cur =>
      match g cur with
      | none => []
      | some p => if p = root then [] else p :: parentChainAux g root fuel p

/-- Modelled from the spec's description of click resolution: (a) a node
registered directly, else (b) the first registered node met along the hit
node's parent chain up to but not including the scene root, else (c) the
first registered object in sequence order whose subtree contains the hit
node. -/
def resolveClickSpec (models : List Model) (g : Nat → Option Nat)
    (root mesh fuel : Nat) : Option Model :=
  (models.find? (fun m => m.object == mesh)).orElse (fun _ =>
    ((parentChainAux g root fuel mesh).findSome?
        (fun a => models.find? (fun m => m.object == a))).orElse (fun _ =>
      models.find? (fun m => (nodeChain g fuel mesh).contains m.object)))

/-- The pyramid registry entry created at startup (node handles and ids
are representative concrete values; built-in ids come from
`Date.now() + Math.random() + index`). -/
def pyramidBuiltIn : Model := { object := 1, name := "Пирамида", id := 100 }

/-- The cube registry entry created at startup. -/
def cubeBuiltIn : Model := { object := 2, name := "Куб", id := 101 }

/-- The sphere registry entry created at startup. -/
def sphereBuiltIn : Model := { object := 3, name := "Сфера", id := 102 }

/-- Manager state right after startup: the three built-ins registered (the
ground, node 0, is in the scene but not registered), nothing selected. -/
def startupState : MMState :=
  { models := [pyramidBuiltIn, cubeBuiltIn, sphereBuiltIn],
    selectedModel := none,
    gizmoAttached := none,
    scene := [0, 1, 2, 3] }

/-- The registry/selection invariant: the selection reference is empty or
points at an element of the registry sequence. -/
def selectionInv (s : MMState) : Prop :=
  match s.selectedModel with
  | none => True
  | some m => m ∈ s.models

/-- A scene node's transform channels (`object.position/rotation/scale`),
modelled over exact reals (the JS doubles idealized). -/
structure Transform where
  posX : ℝ
  posY : ℝ
  posZ : ℝ
  rotX : ℝ
  rotY : ℝ
  rotZ : ℝ
  scaleX : ℝ
  scaleY : ℝ
  scaleZ : ℝ

/-- `THREE.MathUtils.degToRad(d) = d * (Math.PI / 180)`. -/
noncomputable def degToRad (d : ℝ) : ℝ := d * (Real.pi / 180)

/-- `THREE.MathUtils.radToDeg(r) = r * (180 / Math.PI)`. -/
noncomputable def radToDeg (r : ℝ) : ℝ := r * (180 / Real.pi)

/-- `UIManager.updateModelTransform(fieldId, value)`: no-op when nothing
is selected; otherwise write `value` into the one channel named by
`fieldId`, converting degrees to radians for the rotation fields (the
`switch` has no default, so unknown ids change nothing). -/
noncomputable def updateModelTransform (sel : Option Transform)
    (fieldId : String) (value : ℝ) : Option Transform :=
  match sel with
  | none => none
  | some t =>
      some (match fieldId with
        | "posX" => { t with posX := value }
        | "posY" => { t with posY := value }
        | "posZ" => { t with posZ := value }
        | "rotX" => { t with rotX := degToRad value }
        | "rotY" => { t with rotY := degToRad value }
        | "rotZ" => { t with rotZ := degToRad value }
        | "scaleX" => { t with scaleX := value }
        | "scaleY" => { t with scaleY := value }
        | "scaleZ" => { t with scaleZ := value }
        | _ => t)

/-- The integer shown in the `rotX` field by `updateTransformControls`:
`radToDeg(rotation.x).toFixed(0)` (rounding to the nearest integer). -/
noncomputable def displayedRotX (t : Transform) : ℤ := round (radToDeg t.rotX)

theorem deselectModel_fst_models (s : MMState) : (deselectModel s).1.models = s.models := by
  unfold deselectModel
  cases s.selectedModel <;> rfl

theorem deselectModel_fst_scene (s : MMState) : (deselectModel s).1.scene = s.scene := by
  unfold deselectModel
  cases s.selectedModel <;> rfl

theorem deselectModel_fst_selected (s : MMState) : (deselectModel s).1.selectedModel = none := by
  unfold deselectModel
  cases hs : s.selectedModel <;> simp [hs]

theorem deselectModel_snd_of_some (s : MMState) (m : Model) (h : s.selectedModel = some m) :
    (deselectModel s).2 = [GizmoEvent.detach s.gizmoAttached] := by
  unfold deselectModel
  rw [h]

theorem selectModel_fst_models (s : MMState) (om : Option Model) :
    (selectModel s om).1.models = s.models := by
  unfold selectModel
  by_cases h : s.selectedModel = om
  · simp [h]
  · cases om <;> simp [h, deselectModel_fst_models]

theorem selectModel_fst_scene (s : MMState) (om : Option Model) :
    (selectModel s om).1.scene = s.scene := by
  unfold selectModel
  by_cases h : s.selectedModel = om
  · simp [h]
  · cases om <;> simp [h, deselectModel_fst_scene]

theorem selectModel_fst_selected (s : MMState) (om : Option Model) :
    (selectModel s om).1.selectedModel = om := by
  unfold selectModel
  by_cases h : s.selectedModel = om
  · simp [h]
  · cases om <;> simp [h]

theorem selectModel_fst_gizmo (s : MMState) (m : Model) (h : s.selectedModel ≠ some m) :
    (selectModel s (some m)).1.gizmoAttached = some m.object := by
  unfold selectModel
  simp [h]

theorem selectModel_of_already_selected (s : MMState) (X : Model)
    (h : s.selectedModel = some X) : selectModel s (some X) = (s, []) := by
  unfold selectModel
  simp [h]

theorem removeModel_fst_models (s : MMState) (model : Model) :
    (removeModel s model).1.models = s.models.filter (fun m => m != model) := by
  unfold removeModel
  by_cases h : s.selectedModel = some model
  · simp [h, deselectModel_fst_models]
  · simp [h]

theorem removeModel_fst_selected (s : MMState) (model : Model) :
    (removeModel s model).1.selectedModel
      = (if s.selectedModel = some model then none else s.selectedModel) := by
  unfold removeModel
  by_cases h : s.selectedModel = some model
  · simp [h, deselectModel_fst_selected]
  · simp [h]

theorem removeModel_fst_gizmo (s : MMState) (model : Model) :
    (removeModel s model).1.gizmoAttached
      = (if s.selectedModel = some model then none else s.gizmoAttached) := by
  unfold removeModel
  by_cases h : s.selectedModel = some model
  · unfold deselectModel
    rw [h]
    simp [h]
  · simp [h]

theorem removeModel_snd (s : MMState) (model : Model) :
    (removeModel s model).2
      = (if s.selectedModel = some model then (deselectModel s).2 else []) := by
  unfold removeModel
  by_cases h : s.selectedModel = some model
  · simp [h]
  · simp [h]

theorem selectionInv_of (s : MMState)
    (h : ∀ m, s.selectedModel = some m → m ∈ s.models) : selectionInv s := by
  unfold selectionInv
  cases hm : s.selectedModel with
  | none => trivial
  | some m => exact h m hm

theorem selectionInv_elim (s : MMState) (x : Model) (h : selectionInv s)
    (hx : s.selectedModel = some x) : x ∈ s.models := by
  unfold selectionInv at h
  rw [hx] at h
  exact h

theorem loadModel_unsupported_state (s : MMState) (fileName : String) (now : Nat)
    (parse : Except String Nat)
    (h : supportedExts.contains (getExtension fileName) = false) :
    loadModel s fileName now parse
      = { state := s, events := [],
          importError := some (ImportError.unsupportedFormat (getExtension fileName)),
          alertMsg := some ("Ошибка загрузки модели: "
            ++ errorMessage (ImportError.unsupportedFormat (getExtension fileName))) } := by
  have h2 : getExtension fileName ∉ supportedExts := by simpa using h
  unfold loadModel
  simp [h2]

theorem loadModel_parse_error_state (s : MMState) (fileName : String) (now : Nat)
    (msg : String)
    (h : supportedExts.contains (getExtension fileName) = true) :
    loadModel s fileName now (Except.error msg)
      = { state := s, events := [],
          importError := some (ImportError.parseError msg),
          alertMsg := some ("Ошибка загрузки модели: "
            ++ errorMessage (ImportError.parseError msg)) } := by
  have h2 : getExtension fileName ∈ supportedExts := by simpa using h
  unfold loadModel
  simp [h2]

theorem loadModel_ok_state (s : MMState) (fileName : String) (now node : Nat)
    (h : supportedExts.contains (getExtension fileName) = true) :
    loadModel s fileName now (Except.ok node)
      = { state := (selectModel
            { s with models := s.models ++ [{ object := node, name := fileName, id := now }],
                     scene := s.scene ++ [node] }
            (some { object := node, name := fileName, id := now })).1,
          events := (selectModel
            { s with models := s.models ++ [{ object := node, name := fileName, id := now }],
                     scene := s.scene ++ [node] }
            (some { object := node, name := fileName, id := now })).2,
          importError := none, alertMsg := none } := by
  have h2 : getExtension fileName ∈ supportedExts := by simpa using h
  unfold loadModel
  simp [h2]

theorem chainSearch_mem (models : List Model) (g : Nat → Option Nat) (root : Nat) :
    ∀ fuel cur m, chainSearch models g root cur fuel = some m → m ∈ models := by
  intro fuel
  induction fuel with
  | zero => intro cur m h; exact absurd h (by simp [chainSearch])
  | succ n ih =>
      intro cur m h
      cases hg : g cur with
      | none => simp [chainSearch, hg] at h
      | some p =>
          by_cases hp : p = root
          · simp [chainSearch, hg, hp] at h
          · cases hf : models.find? (fun model => model.object == p) with
            | some m2 =>
                simp [chainSearch, hg, hp, hf] at h
                exact h ▸ List.mem_of_find?_eq_some hf
            | none =>
                simp [chainSearch, hg, hp, hf] at h
                exact ih p m h

theorem findModelByMesh_mem (models : List Model) (g : Nat → Option Nat)
    (root mesh fuel : Nat) (m : Model)
    (h : findModelByMesh models g root mesh fuel = some m) : m ∈ models := by
  cases hf : models.find? (fun model => model.object == mesh) with
  | some d =>
      simp [findModelByMesh, hf] at h
      exact h ▸ List.mem_of_find?_eq_some hf
  | none =>
      cases hc : chainSearch models g root mesh fuel with
      | some m2 =>
          simp [findModelByMesh, hf, hc] at h
          exact h ▸ chainSearch_mem models g root fuel mesh m2 hc
      | none =>
          simp [findModelByMesh, hf, hc] at h
          exact List.mem_of_find?_eq_some h

theorem isDescendantOf_eq_nodeChain (g : Nat → Option Nat) :
    ∀ fuel x r, isDescendantOf g fuel x r = (nodeChain g fuel x).contains r := by
  intro fuel
  induction fuel with
  | zero => intro x r; rfl
  | succ n ih =>
      intro x r
      by_cases h : x = r
      · subst h
        simp [isDescendantOf, nodeChain]
      · cases hg : g x with
        | none => simp [isDescendantOf, nodeChain, hg, h, Ne.symm h]
        | some p => simp [isDescendantOf, nodeChain, hg, h, Ne.symm h, ih]

theorem chainSearch_eq_parentChain (models : List Model) (g : Nat → Option Nat) (root : Nat) :
    ∀ fuel cur,
      chainSearch models g root cur fuel
        = (parentChainAux g root fuel cur).findSome?
            (fun a => models.find? (fun m => m.object == a)) := by
  intro fuel
  induction fuel with
  | zero => intro cur; rfl
  | succ n ih =>
      intro cur
      cases hg : g cur with
      | none => simp [chainSearch, parentChainAux, hg]
      | some p =>
          by_cases hp : p = root
          · simp [chainSearch, parentChainAux, hg, hp]
          · cases hf : models.find? (fun m => m.object == p) with
            | some m => simp [chainSearch, parentChainAux, hg, hp, hf, List.findSome?]
            | none => simp [chainSearch, parentChainAux, hg, hp, hf, List.findSome?, ih]

/-- C1: importing a file whose (case-insensitive) extension is outside
{gltf, glb, obj, stl} fails with `UnsupportedFormat`, surfaces a
user-visible message naming the supported formats, and leaves the whole
manager state (registry sequence and selection included) unchanged. -/
theorem loadModel_unsupported_rejects (s : MMState) (fileName : String) (now : Nat)
    (parse : Except String Nat)
    (h : supportedExts.contains (getExtension fileName) = false) :
    (loadModel s fileName now parse).state = s ∧
    (loadModel s fileName now parse).importError
      = some (ImportError.unsupportedFormat (getExtension fileName)) ∧
    ∃ pre, (loadModel s fileName now parse).alertMsg = some (pre ++ supportedFormatsText) := by
  rw [loadModel_unsupported_state s fileName now parse h]
  refine ⟨rfl, rfl,
    ⟨"Ошибка загрузки модели: " ++ ("Неподдерживаемый формат файла: "
      ++ getExtension fileName ++ ". Поддерживаемые форматы: "), ?_⟩⟩
  simp [errorMessage, String.append_assoc]

/-- C1 witness: the concrete file "model.png". -/
theorem loadModel_unsupported_rejects_witness :
    supportedExts.contains (getExtension "model.png") = false ∧
    ((loadModel startupState "model.png" 0 (Except.error "boom")).state = startupState ∧
     (loadModel startupState "model.png" 0 (Except.error "boom")).importError
       = some (ImportError.unsupportedFormat (getExtension "model.png")) ∧
     ∃ pre, (loadModel startupState "model.png" 0 (Except.error "boom")).alertMsg
       = some (pre ++ supportedFormatsText)) :=
  ⟨by decide,
   loadModel_unsupported_rejects startupState "model.png" 0 (Except.error "boom") (by decide)⟩

/-- C2: importing a file with a supported extension whose parser succeeds
appends exactly one new registry entry (name = file name, id = the
current timestamp) at the end of the sequence, inserts its node into the
scene, and selects that entry. -/
theorem loadModel_success_appends_and_selects (s : MMState) (fileName : String)
    (now node : Nat)
    (h : supportedExts.contains (getExtension fileName) = true) :
    (loadModel s fileName now (Except.ok node)).state.models
      = s.models ++ [{ object := node, name := fileName, id := now }] ∧
    (loadModel s fileName now (Except.ok node)).state.scene = s.scene ++ [node] ∧
    (loadModel s fileName now (Except.ok node)).state.selectedModel
      = some { object := node, name := fileName, id := now } ∧
    (loadModel s fileName now (Except.ok node)).importError = none := by
  rw [loadModel_ok_state s fileName now node h]
  exact ⟨selectModel_fst_models _ _, selectModel_fst_scene _ _, selectModel_fst_selected _ _, rfl⟩

/-- C2 witness: the concrete file "part.stl", node 42, timestamp 5. -/
theorem loadModel_success_appends_and_selects_witness :
    supportedExts.contains (getExtension "part.stl") = true ∧
    ((loadModel startupState "part.stl" 5 (Except.ok 42)).state.models
       = startupState.models ++ [{ object := 42, name := "part.stl", id := 5 }] ∧
     (loadModel startupState "part.stl" 5 (Except.ok 42)).state.scene
       = startupState.scene ++ [42] ∧
     (loadModel startupState "part.stl" 5 (Except.ok 42)).state.selectedModel
       = some { object := 42, name := "part.stl", id := 5 } ∧
     (loadModel startupState "part.stl" 5 (Except.ok 42)).importError = none) :=
  ⟨by decide, loadModel_success_appends_and_selects startupState "part.stl" 5 42 (by decide)⟩

/-- C3 counterexample: with the built-in pyramid selected, a
non-affirmative answer to the confirmation does NOT proceed to removal —
the registry still holds all three entries, and the pyramid is still
present — refuting "removal proceeds if and only if the user gives a
non-affirmative answer" at this concrete input (the confirmation itself
is shown). -/
theorem removeBtn_nonaffirmative_still_keeps_builtin :
    (removeModelBtnClick ((selectModel startupState (some pyramidBuiltIn)).1) false).2.2 = true ∧
    ((removeModelBtnClick ((selectModel startupState (some pyramidBuiltIn)).1) false).1).models
      = startupState.models ∧
    pyramidBuiltIn ∈
      ((removeModelBtnClick ((selectModel startupState (some pyramidBuiltIn)).1) false).1).models := by
  decide

/-- C3 (amended): when remove is attempted on a selected built-in object,
a confirmation is prompted and actual removal never proceeds — under both
an affirmative and a non-affirmative answer the handler leaves the whole
manager state unchanged (the inner `if (confirm(..)) return;` is the
entire built-in branch; the removal call sits on the `else` of the outer
name check). -/
theorem removeBtn_builtin_never_removed (s : MMState) (m : Model) (ans : Bool)
    (hsel : s.selectedModel = some m)
    (hname : builtInNames.contains m.name = true) :
    (removeModelBtnClick s ans).1 = s ∧
    (removeModelBtnClick s ans).2.1 = [] ∧
    (removeModelBtnClick s ans).2.2 = true := by
  have hn : m.name ∈ builtInNames := by simpa using hname
  unfold removeModelBtnClick
  rw [hsel]
  cases ans <;> simp [hn]

/-- C3 witness: the built-in pyramid selected, affirmative answer. -/
theorem removeBtn_builtin_never_removed_witness :
    ((selectModel startupState (some pyramidBuiltIn)).1.selectedModel = some pyramidBuiltIn ∧
     builtInNames.contains pyramidBuiltIn.name = true) ∧
    (removeModelBtnClick ((selectModel startupState (some pyramidBuiltIn)).1) true).1
      = (selectModel startupState (some pyramidBuiltIn)).1 :=
  ⟨⟨by decide, by decide⟩,
   (removeBtn_builtin_never_removed ((selectModel startupState (some pyramidBuiltIn)).1)
      pyramidBuiltIn true (by decide) (by decide)).1⟩

/-- C4: for each of the three built-in objects registered at startup
(whose names are exactly the reserved names), selecting it and clicking
the remove button leaves the length of the registry sequence unchanged,
under either confirmation answer. -/
theorem removeBtn_builtin_keeps_list_length (b : Model)
    (hb : b ∈ startupState.models) (ans : Bool) :
    ((removeModelBtnClick ((selectModel startupState (some b)).1) ans).1).models.length
      = startupState.models.length := by
  have hcases : b = pyramidBuiltIn ∨ b = cubeBuiltIn ∨ b = sphereBuiltIn := by
    simpa [startupState] using hb
  rcases hcases with h | h | h <;> subst h <;> cases ans <;> decide

/-- C4 witness: the pyramid with a non-affirmative answer. -/
theorem removeBtn_builtin_keeps_list_length_witness :
    pyramidBuiltIn ∈ startupState.models ∧
    ((removeModelBtnClick ((selectModel startupState (some pyramidBuiltIn)).1) false).1).models.length
      = startupState.models.length :=
  ⟨by decide, removeBtn_builtin_keeps_list_length pyramidBuiltIn (by decide) false⟩

/-- C5: removing the currently selected registry entry leaves the manager
in the Unselected state — the gizmo detached and the selection reference
empty — and the entry absent from the registry sequence. -/
theorem removeModel_selected_unselects_and_deletes (s : MMState) (X : Model)
    (_hmem : X ∈ s.models) (hsel : s.selectedModel = some X) :
    (removeModel s X).1.selectedModel = none ∧
    (removeModel s X).1.gizmoAttached = none ∧
    X ∉ (removeModel s X).1.models := by
  refine ⟨?_, ?_, ?_⟩
  · rw [removeModel_fst_selected, if_pos hsel]
  · rw [removeModel_fst_gizmo, if_pos hsel]
  · rw [removeModel_fst_models]
    intro hX
    have := (List.mem_filter.mp hX).2
    simp at this

/-- C5 witness: the pyramid selected in the startup registry. -/
theorem removeModel_selected_unselects_and_deletes_witness :
    (pyramidBuiltIn ∈ (selectModel startupState (some pyramidBuiltIn)).1.models ∧
     (selectModel startupState (some pyramidBuiltIn)).1.selectedModel = some pyramidBuiltIn) ∧
    (removeModel ((selectModel startupState (some pyramidBuiltIn)).1) pyramidBuiltIn).1.selectedModel
      = none ∧
    (removeModel ((selectModel startupState (some pyramidBuiltIn)).1) pyramidBuiltIn).1.gizmoAttached
      = none ∧
    pyramidBuiltIn ∉
      (removeModel ((selectModel startupState (some pyramidBuiltIn)).1) pyramidBuiltIn).1.models :=
  ⟨⟨by decide, by decide⟩,
   removeModel_selected_unselects_and_deletes ((selectModel startupState (some pyramidBuiltIn)).1)
     pyramidBuiltIn (by decide) (by decide)⟩

theorem selectionInv_selectModel (s : MMState) (om : Option Model)
    (h : ∀ m, om = some m → m ∈ s.models) : selectionInv (selectModel s om).1 := by
  apply selectionInv_of
  intro m hm
  rw [selectModel_fst_selected] at hm
  rw [selectModel_fst_models]
  exact h m hm

/-- C6: the invariant "the selection reference is empty or points to an
element of the registry sequence" is preserved by import, remove, select
(of a registered entry or of null), deselect, and click resolution. -/
theorem selectionInv_preserved (s : MMState) (hs : selectionInv s) :
    (∀ fileName now parse, selectionInv (loadModel s fileName now parse).state) ∧
    (∀ m : Model, selectionInv (removeModel s m).1) ∧
    (∀ om : Option Model, (∀ m, om = some m → m ∈ s.models) →
      selectionInv (selectModel s om).1) ∧
    selectionInv (deselectModel s).1 ∧
    (∀ g root fuel hit, selectionInv (onMouseClick s g root fuel hit).1) := by
  have hdesel : selectionInv (deselectModel s).1 := by
    apply selectionInv_of
    intro m hm
    rw [deselectModel_fst_selected] at hm
    exact absurd hm (by simp)
  refine ⟨?_, ?_, selectionInv_selectModel s, hdesel, ?_⟩
  · intro fileName now parse
    cases hext : supportedExts.contains (getExtension fileName) with
    | false => rw [loadModel_unsupported_state s fileName now parse hext]; exact hs
    | true =>
        cases parse with
        | error msg => rw [loadModel_parse_error_state s fileName now msg hext]; exact hs
        | ok node =>
            rw [loadModel_ok_state s fileName now node hext]
            apply selectionInv_selectModel
            intro m hm
            cases hm
            simp
  · intro target
    apply selectionInv_of
    intro x hx
    rw [removeModel_fst_selected] at hx
    rw [removeModel_fst_models]
    by_cases hc : s.selectedModel = some target
    · rw [if_pos hc] at hx; exact absurd hx (by simp)
    · rw [if_neg hc] at hx
      have hxmem : x ∈ s.models := selectionInv_elim s x hs hx
      have hxne : x ≠ target := by
        intro hxt
        exact hc (hxt ▸ hx)
      simp [List.mem_filter, hxmem, hxne]
  · intro g root fuel hit
    cases hit with
    | none => exact hdesel
    | some mesh =>
        apply selectionInv_selectModel
        intro m hm
        exact findModelByMesh_mem s.models g root mesh fuel m hm

/-- C6 witness: the startup state, exercising the remove branch. -/
theorem selectionInv_preserved_witness :
    selectionInv startupState ∧ selectionInv (removeModel startupState pyramidBuiltIn).1 :=
  ⟨trivial, (selectionInv_preserved startupState trivial).2.1 pyramidBuiltIn⟩

/-- C7: with A selected (gizmo on A's node), selecting B ≠ A emits
exactly one detach (recording A's node) followed by exactly one attach
(to B's node), after which the gizmo holds B's node only; selecting the
already-selected entry emits no events and changes nothing. -/
theorem selectModel_switch_events (s : MMState) (A B : Model)
    (hsel : s.selectedModel = some A) (hgiz : s.gizmoAttached = some A.object)
    (hAB : A ≠ B) :
    (selectModel s (some B)).2
      = [GizmoEvent.detach (some A.object), GizmoEvent.attach B.object] ∧
    (selectModel s (some B)).1.gizmoAttached = some B.object ∧
    (∀ s2 : MMState, ∀ X : Model, s2.selectedModel = some X →
      selectModel s2 (some X) = (s2, [])) := by
  have hne : s.selectedModel ≠ some B := by
    rw [hsel]
    simpa using hAB
  refine ⟨?_, selectModel_fst_gizmo s B hne, selectModel_of_already_selected⟩
  unfold selectModel
  rw [if_neg hne]
  dsimp only
  rw [deselectModel_snd_of_some s A hsel, hgiz]
  rfl

/-- C7 witness: pyramid selected, then the cube is selected. -/
theorem selectModel_switch_events_witness :
    ((selectModel startupState (some pyramidBuiltIn)).1.selectedModel = some pyramidBuiltIn ∧
     (selectModel startupState (some pyramidBuiltIn)).1.gizmoAttached
       = some pyramidBuiltIn.object ∧
     pyramidBuiltIn ≠ cubeBuiltIn) ∧
    (selectModel ((selectModel startupState (some pyramidBuiltIn)).1) (some cubeBuiltIn)).2
      = [GizmoEvent.detach (some pyramidBuiltIn.object), GizmoEvent.attach cubeBuiltIn.object] :=
  ⟨⟨by decide, by decide, by decide⟩,
   (selectModel_switch_events ((selectModel startupState (some pyramidBuiltIn)).1)
      pyramidBuiltIn cubeBuiltIn (by decide) (by decide) (by decide)).1⟩

/-- C8: with an object selected, writing 90 into the `rotX` field stores
exactly π/2 in the node's `rotation.x` (degrees→radians), and the value
subsequently displayed for `rotX` (radians→degrees, rounded to the
field's integer precision) is 90.  The JS doubles are modelled as exact
reals, within which the claim's floating-point tolerance is zero. -/
theorem rotX_field_roundtrip (t : Transform) :
    updateModelTransform (some t) "rotX" 90 = some { t with rotX := Real.pi / 2 } ∧
    displayedRotX { t with rotX := Real.pi / 2 } = 90 := by
  constructor
  · have h : degToRad 90 = Real.pi / 2 := by
      unfold degToRad
      ring
    simp [updateModelTransform, h]
  · unfold displayedRotX radToDeg
    have h90 : Real.pi / 2 * (180 / Real.pi) = ((90 : ℤ) : ℝ) := by
      have hpi : (Real.pi : ℝ) ≠ 0 := Real.pi_ne_zero
      field_simp
      ring
    show round (Real.pi / 2 * (180 / Real.pi)) = 90
    rw [h90, round_intCast]

/-- C9: `findModelByMesh` resolves a hit node to its owning registry
entry by exactly the ordered resolution the spec describes — (a) direct
identity match against a registered node, else (b) the first registered
node met while walking the hit node's parent chain up to but not
including the scene root, else (c) the first registered entry in sequence
order whose subtree contains the hit node — returning none when no entry
owns it.  Stated as equality with `resolveClickSpec`, the definition
transcribed from the spec's words, for every registry, parent map, scene
root, hit node and fuel bound. -/
theorem findModelByMesh_matches_ordered_resolution (models : List Model)
    (g : Nat → Option Nat) (root mesh fuel : Nat) :
    findModelByMesh models g root mesh fuel = resolveClickSpec models g root mesh fuel := by
  unfold findModelByMesh resolveClickSpec
  rw [chainSearch_eq_parentChain]
  have hpred : (fun model : Model => isDescendantOf g fuel mesh model.object)
      = (fun m : Model => (nodeChain g fuel mesh).contains m.object) :=
    funext fun m => isDescendantOf_eq_nodeChain g fuel mesh m.object
  rw [hpred]
  cases models.find? (fun m => m.object == mesh) with
  | some d => rfl
  | none =>
      cases (parentChainAux g root fuel mesh).findSome?
          (fun a => models.find? (fun m => m.object == a)) with
      | some m => rfl
      | none => rfl

/-- C10: removing a target that is not present in the registry sequence
is a silent no-op on registry state — the sequence and the selection
reference are unchanged and no gizmo event is emitted. -/
theorem removeModel_absent_is_registry_noop (s : MMState) (target : Model)
    (hmem : target ∉ s.models) (hinv : selectionInv s) :
    (removeModel s target).1.models = s.models ∧
    (removeModel s target).1.selectedModel = s.selectedModel ∧
    (removeModel s target).2 = [] := by
  have hns : s.selectedModel ≠ some target := fun h => hmem (selectionInv_elim s target hinv h)
  refine ⟨?_, ?_, ?_⟩
  · rw [removeModel_fst_models]
    apply List.filter_eq_self.mpr
    intro a ha
    simp only [bne_iff_ne, ne_eq, decide_eq_true_eq]
    intro hat
    exact hmem (hat ▸ ha)
  · rw [removeModel_fst_selected, if_neg hns]
  · rw [removeModel_snd, if_neg hns]

/-- C10 witness: a ghost entry never registered, against the startup
state. -/
theorem removeModel_absent_is_registry_noop_witness :
    (({ object := 9, name := "ghost.obj", id := 7 } : Model) ∉ startupState.models ∧
     selectionInv startupState) ∧
    ((removeModel startupState { object := 9, name := "ghost.obj", id := 7 }).1.models
       = startupState.models ∧
     (removeModel startupState { object := 9, name := "ghost.obj", id := 7 }).1.selectedModel
       = startupState.selectedModel ∧
     (removeModel startupState { object := 9, name := "ghost.obj", id := 7 }).2 = []) :=
  ⟨⟨by decide, trivial⟩,
   removeModel_absent_is_registry_noop startupState { object := 9, name := "ghost.obj", id := 7 }
     (by decide) trivial⟩
